import Mathlib

/-!
Verification of `billcut_chatbot.py` (BillCut-chatbot-v1).

Shallow embedding of the program:
  * `get_api_key` models `get_api_key()` (lines 5-24).  `st.secrets` lookup is
    modelled as an `Option String` (`none` = the `KeyError` path), and
    `os.environ.get` as an `Option String` (`none` = variable unset).  The
    `raise ValueError` on an empty/unset environment value is caught by the
    surrounding `except Exception`, so that path yields `none`.
  * `get_gemini_response` models `get_gemini_response(prompt)` (lines 33-49).
    The external call `model.generate_content(prompt)` together with the
    `.text` access is modelled by an oracle `gen : String → Except String String`
    whose `.error` constructor stands for a raised exception.  The Python
    `try/except Exception` catches every exception, hence the translated
    function maps `.error` to the fixed returned string.  A result of
    `Except.error` in the codomain would model an exception escaping the
    function; the theorems show this never happens.
  * `create_prompt` models `create_prompt(user_message)` (lines 51-99): the
    f-string is literal-prefix ++ user_message ++ literal-suffix.  The prefix
    is transcribed line by line, byte for byte (including trailing spaces and
    the indentation that the triple-quoted literal keeps).
  * `sessionStep` models one execution of the `if prompt := st.chat_input(...)`
    block of `main()` (lines 120-141): append the user message, build the
    prompt, call the client, append the assistant message (`if response:`
    success branch for a truthy, i.e. non-empty, string; `else` branch
    otherwise).  It additionally records the argument passed to the
    generation call in `sentPrompts`.
  * `runSession` models repeated reruns of `main()` over a list of user
    inputs, starting from the seeded history (lines 109-112).
  * `runApp` models the module-level configuration (lines 26-31): `none`
    means `st.stop()` ran, i.e. the process halted before `main()` and hence
    before any generation call.
-/

inductive Role where
  | user
  | assistant
deriving DecidableEq, Repr

structure Message where
  role : Role
  content : String
deriving DecidableEq, Repr

/-- One chat session's observable state: the `st.session_state.messages` list
plus an instrumentation trace of every argument passed to the generation
call. -/
structure SessionState where
  messages : List Message
  sentPrompts : List String
deriving DecidableEq, Repr

/-- Line 11-24 of the source: resolve the credential from the secrets store,
falling back to the environment variable; an unset or empty environment value
raises `ValueError`, which the enclosing `except Exception` turns into
`None`. -/
def get_api_key (secrets env : Option String) : Option String :=
  match secrets with
  | some api_key => some api_key
  | none =>
    match env with
    | some api_key => if api_key = "" then none else some api_key
    | none => none

/-- Line 49 of the source: the string returned from the `except` branch of
`get_gemini_response`. -/
def processingErrorReply : String := "I encountered an error while processing your request."

/-- Line 137 of the source: the `error_message` appended by the `else`
branch of `main()`. -/
def error_message : String := "I'm sorry, I encountered an error processing your request."

/-- Lines 33-49 of the source.  `gen prompt` is the outcome of
`model.generate_content(prompt)` followed by `.text`; `Except.error` models a
raised exception.  The `try/except Exception` catches everything and returns
a fixed string instead.  An `Except.error` result of this function would be
an exception escaping to the caller. -/
def get_gemini_response (gen : String → Except String String) (prompt : String) :
    Except String String :=
  match gen prompt with
  | Except.ok text => Except.ok text
  | Except.error _ => Except.ok processingErrorReply

/-- The exact fallback sentence the template instructs the model to emit
(lines 83 and 95 of the source). -/
def fallbackSentence : String :=
  "I'm sorry, I cannot answer that question with the information I have."

/-- The literal ₹19 debt-settlement fee fact (tail of line 65 of the source). -/
def feeFact : String :=
  "debt settlement, which has a ₹19 fee for a session with a financial advisor."

/-- Instruction 5 of the template (line 84 of the source), forbidding
introductory phrases. -/
def noPreambleInstruction : String :=
  "Do not include any introductory phrases like \"According to the provided information:\".  Just provide the answer."

/-- Lines 55-65 of the f-string, up to (and excluding) the fee fact. -/
def tplPart1 : String :=
  "\n"
  ++ "    You are a chatbot named Sophie, a customer service representative for BillCut. \n"
  ++ "    BillCut is a fintech company that helps users manage their debt. Your goal is to provide concise and accurate information.\n"
  ++ "\n"
  ++ "    Here is the *only* information you are allowed to use.  Do *not* use any other information, and do not make up any details.  Respond *exactly* as specified.\n"
  ++ "\n"
  ++ "    COMPANY INFORMATION:\n"
  ++ "    \n"
  ++ "    -   **Refinancing:** BillCut helps refinance debt by paying off existing credit card or personal loans and converting them into Equated Monthly Installments (EMIs).\n"
  ++ "    -   **Debt Settlement:** BillCut assists users facing recovery calls by helping to reduce their outstanding loan or credit card dues by up to 50%.  This is *not* a loan service.\n"
  ++ "    -   **Fees:** BillCut does not charge any fees, except for "

/-- Lines 65-83 of the f-string, from after the fee fact up to (and
excluding) the quoted fallback sentence of instruction 4. -/
def tplPart2 : String :=
  "\n"
  ++ "    -   **Interest Rates:** Interest rates for refinancing vary from 12% to 19%.\n"
  ++ "    -   **Loan Consolidation:** BillCut can consolidate multiple loans into a single loan. Users make payments directly to the Non-Banking Financial Company (NBFC).\n"
  ++ "    -   **Loan Payment:** BillCut works in partnership with NBFCs. The NBFCs pay off the user's loan amount.\n"
  ++ "    -   **Fund Disbursement:** NBFCs transfer funds directly to the user's bank account, except for balance transfers, which are handled via demand draft.\n"
  ++ "    -   **Foreclosure Charges:** The foreclosure charge is approximately 3% of the remaining loan amount.\n"
  ++ "    -   **Credit Score Impact:** Refinancing does not negatively affect credit scores. Debt settlement *will* negatively affect credit scores.\n"
  ++ "    -   **Work Email:** BillCut asks for work emails only to verify employment. BillCut will not send any emails to the work email address.\n"
  ++ "    -   **Demand Draft:** A demand draft is a prepaid bank slip that guarantees payment. It is safer than a check and cannot bounce.\n"
  ++ "    -   **NBFCs:** Non-Banking Financial Companies (NBFCs) provide loans and other financial products but are not banks.\n"
  ++ "    -   **NBFC Full Form:** The full form of NBFC is Non-Banking Financial Company.\n"
  ++ "    -   **Credit Card Bill Payment:** BillCut pays the user's credit card bill by transferring funds to their account through its lending partners. The amount is converted into a low-interest EMI. The user must provide proof of payment for their credit card.\n"
  ++ "    \n"
  ++ "    INSTRUCTIONS:\n"
  ++ "\n"
  ++ "    1.  Be brief and professional.\n"
  ++ "    2.  Answer the user's question using *only* the information in the \"COMPANY INFORMATION\" section above.\n"
  ++ "    3.  Do *not* make up any information.\n"
  ++ "    4.  If the user asks a question that cannot be answered from the provided information, respond *exactly* with the phrase: \""

/-- Lines 83-84 of the f-string: closing quote of instruction 4, then the
lead-in of instruction 5. -/
def tplPart3 : String := "\"\n    5.  "

/-- Lines 84-95 of the f-string, from after instruction 5 up to (and
excluding) the second occurrence of the fallback sentence (the third
example's response). -/
def tplPart4 : String :=
  "\n"
  ++ "\n"
  ++ "    EXAMPLES:\n"
  ++ "    \n"
  ++ "    User: What is BillCut?\n"
  ++ "    Response: BillCut is a fintech company that helps users manage their debt.\n"
  ++ "    \n"
  ++ "    User: What is your fee for refinancing?\n"
  ++ "    Response: BillCut does not charge any fees.\n"
  ++ "    \n"
  ++ "    User:  What is the interest rate for debt settlement?\n"
  ++ "    Response: "

/-- Lines 95-97 of the f-string: after the second fallback sentence, up to
(and excluding) the opening single quote around the user message. -/
def tplPart5 : String := "\n" ++ "\n" ++ "    Here is the user's question: "

/-- Everything of the f-string that precedes the opening `'` delimiter. -/
def templateBeforeQuote : String :=
  tplPart1 ++ feeFact ++ tplPart2 ++ fallbackSentence ++ tplPart3
    ++ noPreambleInstruction ++ tplPart4 ++ fallbackSentence ++ tplPart5

/-- The full literal portion of the f-string before `{user_message}`
(lines 55-97 of the source). -/
def promptTemplate : String := templateBeforeQuote ++ "'"

/-- The literal portion of the f-string after `{user_message}`: the closing
quote, the newline of line 97, and the four spaces of indentation preceding
the closing `\"\"\"` on line 98. -/
def promptClose : String := "'" ++ "\n    "

/-- Lines 51-99 of the source: the f-string is exactly
literal-prefix ++ user_message ++ literal-suffix. -/
def create_prompt (user_message : String) : String :=
  promptTemplate ++ user_message ++ promptClose

/-- Lines 110-112 of the source: the seeded greeting message. -/
def greetingMessage : Message :=
  ⟨Role.assistant, "Hello! How can I assist you today?"⟩

/-- The session state after lines 109-112 of `main()` seed the history. -/
def initState : SessionState := ⟨[greetingMessage], []⟩

/-- Lines 120-141 of `main()`: one user submission.  Appends the user
message, builds `full_prompt = create_prompt(prompt)`, calls the client with
it (recording the argument in `sentPrompts`), then appends the assistant
message: the response itself when it is truthy (non-empty), `error_message`
otherwise.  An escaped exception (never produced, see the theorems)
propagates as `Except.error`. -/
def sessionStep (gen : String → Except String String) (s : SessionState)
    (prompt_in : String) : Except String SessionState :=
  let messages := s.messages ++ [⟨Role.user, prompt_in⟩]
  let full_prompt := create_prompt prompt_in
  match get_gemini_response gen full_prompt with
  | Except.error e => Except.error e
  | Except.ok response =>
    let sent := s.sentPrompts ++ [full_prompt]
    if response ≠ "" then
      Except.ok ⟨messages ++ [⟨Role.assistant, response⟩], sent⟩
    else
      Except.ok ⟨messages ++ [⟨Role.assistant, error_message⟩], sent⟩

/-- Iterated reruns of `main()` from an arbitrary session state, one user
input per rerun. -/
def runSessionFrom (gen : String → Except String String) (s : SessionState) :
    List String → Except String SessionState
  | [] => Except.ok s
  | m :: rest =>
    match sessionStep gen s m with
    | Except.error e => Except.error e
    | Except.ok s' => runSessionFrom gen s' rest

/-- A whole session: seeded history, then one `sessionStep` per user input. -/
def runSession (gen : String → Except String String) (inputs : List String) :
    Except String SessionState :=
  runSessionFrom gen initState inputs

/-- Lines 26-31 of the source: module-level configuration.  `none` models
`st.stop()` — the process halts before `main()` ever runs, so no generation
call is made.  Otherwise `genai.configure` runs and the session proceeds. -/
def runApp (secrets env : Option String) (gen : String → Except String String)
    (inputs : List String) : Option (Except String SessionState) :=
  match get_api_key secrets env with
  | some api_key =>
    if api_key = "" then none
    else some (runSession gen inputs)
  | none => none

/-- Derived characterization (proved, in `sessionStep_eq`, to agree with the
code): the assistant content appended for user message `m`. -/
def observedReply (gen : String → Except String String) (m : String) : String :=
  match gen (create_prompt m) with
  | Except.ok t => if t ≠ "" then t else error_message
  | Except.error _ => processingErrorReply

/-- Derived characterization: the two messages appended per input, in
order. -/
def transcript (gen : String → Except String String) : List String → List Message
  | [] => []
  | m :: rest =>
    ⟨Role.user, m⟩ :: ⟨Role.assistant, observedReply gen m⟩ :: transcript gen rest

/-- One interaction, in closed form: the step always succeeds and appends the
user message followed by the assistant message `observedReply`, recording the
built prompt that was sent. -/
theorem sessionStep_eq (gen : String → Except String String) (s : SessionState)
    (m : String) :
    sessionStep gen s m = Except.ok
      ⟨s.messages ++ [⟨Role.user, m⟩, ⟨Role.assistant, observedReply gen m⟩],
       s.sentPrompts ++ [create_prompt m]⟩ := by
  have hne : processingErrorReply ≠ "" := by decide
  cases h : gen (create_prompt m) with
  | ok t =>
    by_cases ht : t = ""
    · simp [sessionStep, get_gemini_response, observedReply, h, ht]
    · simp [sessionStep, get_gemini_response, observedReply, h, ht]
  | error e =>
    simp [sessionStep, get_gemini_response, observedReply, h, hne]

/-- Running the session loop from any state succeeds and appends the
transcript of the inputs, recording one built prompt per input. -/
theorem runSessionFrom_eq (gen : String → Except String String) :
    ∀ (inputs : List String) (s : SessionState),
    runSessionFrom gen s inputs = Except.ok
      ⟨s.messages ++ transcript gen inputs,
       s.sentPrompts ++ inputs.map create_prompt⟩ := by
  intro inputs
  induction inputs with
  | nil => intro s; simp [runSessionFrom, transcript]
  | cons m rest ih =>
    intro s
    simp only [runSessionFrom, sessionStep_eq, ih, transcript]
    simp

theorem transcript_length (gen : String → Except String String) :
    ∀ inputs : List String, (transcript gen inputs).length = 2 * inputs.length := by
  intro inputs
  induction inputs with
  | nil => simp [transcript]
  | cons m rest ih => simp [transcript, ih]; omega

/-- C1: when the generation call fails (the oracle raises, i.e. returns
`Err`), the conversation store gains exactly one assistant message, whose
content is the fixed user-facing apology string `processingErrorReply`, and
every previously stored message — including the user message just appended
for this interaction — is preserved unchanged as a prefix of the new
history. -/
theorem generation_error_appends_single_apology
    (gen : String → Except String String) (s : SessionState) (m e : String)
    (h : gen (create_prompt m) = Except.error e) :
    sessionStep gen s m = Except.ok
      ⟨(s.messages ++ [⟨Role.user, m⟩]) ++ [⟨Role.assistant, processingErrorReply⟩],
       s.sentPrompts ++ [create_prompt m]⟩ := by
  have hne : processingErrorReply ≠ "" := by decide
  simp [sessionStep, get_gemini_response, h, hne]

theorem generation_error_appends_single_apology_witness :
    sessionStep (fun _ => Except.error "boom") initState "hi" = Except.ok
      ⟨(initState.messages ++ [⟨Role.user, "hi"⟩]) ++ [⟨Role.assistant, processingErrorReply⟩],
       initState.sentPrompts ++ [create_prompt "hi"]⟩ :=
  generation_error_appends_single_apology (fun _ => Except.error "boom") initState
    "hi" "boom" rfl

/-- C2: for every oracle and every prompt, `get_gemini_response` returns
normally (`Except.ok`), so no exception escapes its boundary; moreover, on a
service failure the returned value is the fixed normalized error reply. -/
theorem get_gemini_response_never_raises
    (gen : String → Except String String) (prompt : String) :
    (∃ t : String, get_gemini_response gen prompt = Except.ok t) ∧
    (∀ e : String, gen prompt = Except.error e →
      get_gemini_response gen prompt = Except.ok processingErrorReply) := by
  constructor
  · cases h : gen prompt with
    | ok t => exact ⟨t, by simp [get_gemini_response, h]⟩
    | error e => exact ⟨processingErrorReply, by simp [get_gemini_response, h]⟩
  · intro e he
    simp [get_gemini_response, he]

theorem get_gemini_response_never_raises_witness :
    get_gemini_response (fun _ => Except.error "down") "p" = Except.ok processingErrorReply :=
  (get_gemini_response_never_raises (fun _ => Except.error "down") "p").2 "down" rfl

/-- C3 counterexample: with the secrets store holding an empty value and the
environment holding a non-empty key, the first non-empty value among the two
providers is the environment's, yet `get_api_key` returns the empty secrets
value — the claim "returns the first non-empty value among them" fails. -/
theorem get_api_key_not_first_nonempty :
    get_api_key (some "") (some "realkey") = some "" ∧
    get_api_key (some "") (some "realkey") ≠ some "realkey" := by
  decide

/-- C3 (amended): `get_api_key` tries the secrets store first and returns its
value whenever the key is present there, even when that value is empty; only
when the secrets key is absent does it consult the environment variable,
returning its value when non-empty; when the secrets key is absent and the
environment is unset or empty it returns no credential; and whenever the
resolved credential is missing or empty the process stops before any session
runs. -/
theorem get_api_key_precedence (v k : String) (env : Option String)
    (gen : String → Except String String) (inputs : List String) (hk : k ≠ "") :
    get_api_key (some v) env = some v ∧
    get_api_key none (some k) = some k ∧
    get_api_key none (some "") = none ∧
    get_api_key none none = none ∧
    runApp none (some "") gen inputs = none ∧
    runApp none none gen inputs = none ∧
    runApp (some "") env gen inputs = none := by
  refine ⟨rfl, by simp [get_api_key, hk], by simp [get_api_key], rfl,
    by simp [runApp, get_api_key], rfl, by simp [runApp, get_api_key]⟩

theorem get_api_key_precedence_witness :
    "k" ≠ "" ∧
    get_api_key (some "s") (some "e") = some "s" ∧
    get_api_key none (some "k") = some "k" :=
  ⟨by decide,
   (get_api_key_precedence "s" "k" (some "e") (fun _ => Except.ok "t") [] (by decide)).1,
   (get_api_key_precedence "s" "k" (some "e") (fun _ => Except.ok "t") [] (by decide)).2.1⟩

/-- C4: in every session, the arguments passed to the generation client are
exactly the built prompts `create_prompt user_message`, one per user input;
and the built prompt is never the raw user message itself. -/
theorem generation_receives_built_prompt :
    (∀ (gen : String → Except String String) (inputs : List String),
      ∃ s : SessionState, runSession gen inputs = Except.ok s ∧
        s.sentPrompts = inputs.map create_prompt) ∧
    (∀ m : String, create_prompt m ≠ m) := by
  constructor
  · intro gen inputs
    refine ⟨⟨initState.messages ++ transcript gen inputs,
             initState.sentPrompts ++ inputs.map create_prompt⟩,
            runSessionFrom_eq gen inputs initState, ?_⟩
    simp [initState]
  · intro m h
    have h2 : (create_prompt m).length = m.length := by rw [h]
    have h3 : promptClose.length = 6 := by decide
    rw [create_prompt, String.length_append, String.length_append] at h2
    omega

theorem generation_receives_built_prompt_witness :
    create_prompt "q" ≠ "q" :=
  generation_receives_built_prompt.2 "q"

/-- C5: `create_prompt` is deterministic, every output is the fixed template
followed by the embedded user message and the fixed closing, and the template
portion preceding the embedded message is byte-identical across all calls. -/
theorem create_prompt_template_fixed :
    (∀ m₁ m₂ : String, m₁ = m₂ → create_prompt m₁ = create_prompt m₂) ∧
    (∀ m : String, create_prompt m = promptTemplate ++ (m ++ promptClose)) ∧
    (∀ m₁ m₂ : String,
      (create_prompt m₁).data.take promptTemplate.data.length =
      (create_prompt m₂).data.take promptTemplate.data.length) := by
  have key : ∀ m : String,
      (create_prompt m).data.take promptTemplate.data.length = promptTemplate.data := by
    intro m
    have hd : (create_prompt m).data =
        promptTemplate.data ++ (m.data ++ promptClose.data) := by
      simp [create_prompt, String.data_append]
    rw [hd]
    exact List.take_left _ _
  refine ⟨fun m₁ m₂ h => by rw [h],
    fun m => by simp [create_prompt, String.append_assoc],
    fun m₁ m₂ => by rw [key m₁, key m₂]⟩

theorem create_prompt_template_fixed_witness :
    create_prompt "a" = create_prompt "a" ∧
    create_prompt "a" = promptTemplate ++ ("a" ++ promptClose) :=
  ⟨create_prompt_template_fixed.1 "a" "a" rfl,
   create_prompt_template_fixed.2.1 "a"⟩

/-- C6: every built prompt contains verbatim the exact fallback-sentence
instruction, the literal ₹19 debt-settlement fee fact, and the instruction
forbidding introductory phrases, and embeds the user message after the
template. -/
theorem create_prompt_contains_required_fragments (m : String) :
    (∃ l r : String, create_prompt m = l ++ (fallbackSentence ++ r)) ∧
    (∃ l r : String, create_prompt m = l ++ (feeFact ++ r)) ∧
    (∃ l r : String, create_prompt m = l ++ (noPreambleInstruction ++ r)) ∧
    create_prompt m = promptTemplate ++ (m ++ promptClose) := by
  refine ⟨⟨tplPart1 ++ feeFact ++ tplPart2,
      tplPart3 ++ noPreambleInstruction ++ tplPart4 ++ fallbackSentence ++ tplPart5
        ++ "'" ++ (m ++ promptClose), ?_⟩,
    ⟨tplPart1,
      tplPart2 ++ fallbackSentence ++ tplPart3 ++ noPreambleInstruction ++ tplPart4
        ++ fallbackSentence ++ tplPart5 ++ "'" ++ (m ++ promptClose), ?_⟩,
    ⟨tplPart1 ++ feeFact ++ tplPart2 ++ fallbackSentence ++ tplPart3,
      tplPart4 ++ fallbackSentence ++ tplPart5 ++ "'" ++ (m ++ promptClose), ?_⟩,
    ?_⟩ <;>
  simp [create_prompt, promptTemplate, templateBeforeQuote, String.append_assoc]

/-- C7: the conversation store is append-only and order-preserving: a whole
session's history has length `1 + 2·N` for `N` user inputs (the seed greeting
plus a user/assistant pair per input), it starts with the seed greeting, and
each interaction extends the previous history — unchanged, as a prefix — with
the user message followed by the assistant message. -/
theorem conversation_store_append_only :
    (∀ (gen : String → Except String String) (inputs : List String),
      ∃ s : SessionState, runSession gen inputs = Except.ok s ∧
        s.messages.length = 1 + 2 * inputs.length ∧
        (∃ rest, s.messages = greetingMessage :: rest)) ∧
    (∀ (gen : String → Except String String) (st : SessionState) (m : String),
      ∃ (reply : String) (st' : SessionState),
        sessionStep gen st m = Except.ok st' ∧
        st'.messages = st.messages ++ [⟨Role.user, m⟩, ⟨Role.assistant, reply⟩]) := by
  constructor
  · intro gen inputs
    refine ⟨⟨initState.messages ++ transcript gen inputs,
             initState.sentPrompts ++ inputs.map create_prompt⟩,
            runSessionFrom_eq gen inputs initState, ?_, ?_⟩
    · simp [initState, transcript_length]
      omega
    · exact ⟨transcript gen inputs, by simp [initState]⟩
  · intro gen st m
    exact ⟨observedReply gen m, _, sessionStep_eq gen st m, rfl⟩

/-- C8: when both credential sources are empty (absent, or holding the empty
string), startup stops the process: `runApp` is `none`, meaning `st.stop()`
ran before `main()`, so no generation call is ever attempted — the outcome is
the same whatever the generation oracle is. -/
theorem empty_credentials_stop_before_generation
    (secrets env : Option String) (gen : String → Except String String)
    (inputs : List String)
    (hs : secrets = none ∨ secrets = some "")
    (he : env = none ∨ env = some "") :
    runApp secrets env gen inputs = none ∧
    (∀ gen' : String → Except String String,
      runApp secrets env gen inputs = runApp secrets env gen' inputs) := by
  rcases hs with h1 | h1 <;> rcases he with h2 | h2 <;> subst h1 <;> subst h2 <;>
    exact ⟨by simp [runApp, get_api_key], fun gen' => by simp [runApp, get_api_key]⟩

theorem empty_credentials_stop_before_generation_witness :
    runApp none none (fun _ => Except.ok "answer") ["hi"] = none :=
  (empty_credentials_stop_before_generation none none (fun _ => Except.ok "answer")
    ["hi"] (Or.inl rfl) (Or.inl rfl)).1

/-- C9: an exception in the generation call makes `get_gemini_response`
return the ordinary non-empty string `processingErrorReply`, which the loop
appends through its success (truthy) branch; the loop's distinct
`else`-branch apology `error_message` is appended exactly when the returned
text is the empty string; any other non-empty returned text is appended
as-is. -/
theorem error_reply_takes_success_branch
    (gen : String → Except String String) (s : SessionState) (m : String) :
    (∀ e : String, gen (create_prompt m) = Except.error e →
      sessionStep gen s m = Except.ok
        ⟨s.messages ++ [⟨Role.user, m⟩, ⟨Role.assistant, processingErrorReply⟩],
         s.sentPrompts ++ [create_prompt m]⟩) ∧
    (gen (create_prompt m) = Except.ok "" →
      sessionStep gen s m = Except.ok
        ⟨s.messages ++ [⟨Role.user, m⟩, ⟨Role.assistant, error_message⟩],
         s.sentPrompts ++ [create_prompt m]⟩) ∧
    (∀ t : String, t ≠ "" → gen (create_prompt m) = Except.ok t →
      sessionStep gen s m = Except.ok
        ⟨s.messages ++ [⟨Role.user, m⟩, ⟨Role.assistant, t⟩],
         s.sentPrompts ++ [create_prompt m]⟩) ∧
    processingErrorReply ≠ "" ∧ processingErrorReply ≠ error_message := by
  refine ⟨?_, ?_, ?_, by decide, by decide⟩
  · intro e he
    have hne : processingErrorReply ≠ "" := by decide
    simp [sessionStep, get_gemini_response, he, hne]
  · intro h0
    simp [sessionStep, get_gemini_response, h0]
  · intro t ht hok
    simp [sessionStep, get_gemini_response, hok, ht]

theorem error_reply_takes_success_branch_witness :
    sessionStep (fun _ => Except.error "x") initState "q1" = Except.ok
      ⟨initState.messages ++ [⟨Role.user, "q1"⟩, ⟨Role.assistant, processingErrorReply⟩],
       initState.sentPrompts ++ [create_prompt "q1"]⟩ ∧
    sessionStep (fun _ => Except.ok "") initState "q2" = Except.ok
      ⟨initState.messages ++ [⟨Role.user, "q2"⟩, ⟨Role.assistant, error_message⟩],
       initState.sentPrompts ++ [create_prompt "q2"]⟩ ∧
    sessionStep (fun _ => Except.ok "Fine.") initState "q3" = Except.ok
      ⟨initState.messages ++ [⟨Role.user, "q3"⟩, ⟨Role.assistant, "Fine."⟩],
       initState.sentPrompts ++ [create_prompt "q3"]⟩ :=
  ⟨(error_reply_takes_success_branch (fun _ => Except.error "x") initState "q1").1 "x" rfl,
   (error_reply_takes_success_branch (fun _ => Except.ok "") initState "q2").2.1 rfl,
   (error_reply_takes_success_branch (fun _ => Except.ok "Fine.") initState "q3").2.2.1
     "Fine." (by decide) rfl⟩

/-- C10: the built prompt embeds the user message immediately surrounded by a
single-quote character on each side, verbatim and with no escaping; hence for
a message that itself contains a single quote the delimiters do not uniquely
delimit it: the prompt built from `a'b` also decomposes as embedding just
`a`. -/
theorem user_message_single_quoted_unescaped :
    (∀ m : String, create_prompt m =
      templateBeforeQuote ++ ("'" ++ (m ++ ("'" ++ "\n    ")))) ∧
    (∃ x r : String, x ≠ "a'b" ∧ create_prompt "a'b" =
      templateBeforeQuote ++ ("'" ++ (x ++ ("'" ++ r)))) := by
  have hall : ∀ m : String, create_prompt m =
      templateBeforeQuote ++ ("'" ++ (m ++ ("'" ++ "\n    "))) := by
    intro m
    simp [create_prompt, promptTemplate, promptClose, String.append_assoc]
  refine ⟨hall, "a", "b'" ++ "\n    ", by decide, ?_⟩
  rw [hall "a'b"]
  exact congrArg (fun t => templateBeforeQuote ++ t)
    (by decide :
      ("'" : String) ++ ("a'b" ++ ("'" ++ "\n    ")) =
      "'" ++ ("a" ++ ("'" ++ ("b'" ++ "\n    "))))
